import Mathlib

/-!
Verification development for the AdSense-to-BigQuery loader (src/main.py).

Shallow embedding conventions:
* A pandas cell is `Option Val`: `none` is a missing value (NaN), `some v`
  a present value; metric cells hold rationals (the Python floats arrive as
  stringified decimals and are parsed with `float`), dimension cells hold
  strings.
* A DataFrame row is an association list from column name to cell, and a
  DataFrame is the list of its rows.  The pipeline builds every row with the
  same column set, so column-wise pandas operations are embedded row-wise.
* The warehouse table is a list of rows; the warehouse calls made by the
  sink are recorded as a trace of operations (`Op`), in program order, so
  that "the delete completes before the append starts" is the order of the
  trace.
* Wall-clock time (`datetime.now()`) is passed in as an explicit `Date`
  argument.
* A Python exception escaping a call is `Except.error`; a caught exception
  follows the except-branch of the source.
-/

/-- A scalar value stored in a DataFrame cell: the pipeline only ever
stores strings (account id, date, domain, country) and numbers (metrics). -/
inductive Val where
  | str (s : String)
  | num (q : ℚ)
deriving DecidableEq, Repr

/-- One DataFrame row: column name to cell; `none` is a missing value. -/
abbrev Row := List (String × Option Val)

/-- A calendar date, as Python datetime components. -/
structure Date where
  year : Nat
  month : Nat
  day : Nat
deriving DecidableEq, Repr

/-- Gregorian leap-year test, as in the calendar Python datetime follows. -/
def isLeap (y : Nat) : Bool :=
  (y % 4 == 0 && y % 100 != 0) || y % 400 == 0

/-- Number of days in a month of a given year. -/
def daysInMonth (y m : Nat) : Nat :=
  if m == 2 then (if isLeap y then 29 else 28)
  else if m == 4 || m == 6 || m == 9 || m == 11 then 30
  else 31

/-- The calendar day before `d`: embeds `d - timedelta(days=1)`. -/
def prevDay (d : Date) : Date :=
  if d.day > 1 then ⟨d.year, d.month, d.day - 1⟩
  else if d.month > 1 then ⟨d.year, d.month - 1, daysInMonth d.year (d.month - 1)⟩
  else ⟨d.year - 1, 12, 31⟩

/-- Zero-pad a numeral to at least `w` digits. -/
def padNum (w n : Nat) : String :=
  let s := toString n
  String.mk (List.replicate (w - s.length) '0') ++ s

/-- Embeds `strftime('%Y-%m-%d')`. -/
def fmtDate (d : Date) : String :=
  padNum 4 d.year ++ "-" ++ padNum 2 d.month ++ "-" ++ padNum 2 d.day

/-- The seven count-valued columns converted to integers by the sink
(`int_cols` in `push_to_bigquery`). -/
def int_cols : List String :=
  ["CLICKS", "PAGE_VIEWS", "TOTAL_IMPRESSIONS", "IMPRESSIONS",
   "INDIVIDUAL_AD_IMPRESSIONS", "MATCHED_AD_REQUESTS", "AD_REQUESTS"]

/-- Truncation toward zero of a rational, as numpy `astype(int)` casts a
float to an integer. -/
def truncQ (q : ℚ) : ℤ :=
  if q < 0 then -((q.num.natAbs / q.den : Nat) : ℤ)
  else ((q.num.natAbs / q.den : Nat) : ℤ)

/-- Embeds `fillna(0).astype(int)` on one cell: a missing value becomes 0,
a number is truncated to an integer.  (On a string cell `astype(int)` would
raise in Python; metric columns of the consolidated table never hold
strings, and theorems over this embedding restrict to such cells.) -/
def coerceCell : Option Val → Option Val
  | none => some (Val.num 0)
  | some (Val.num q) => some (Val.num ((truncQ q : ℤ) : ℚ))
  | some (Val.str s) => some (Val.str s)

/-- Embeds `df[int_cols] = df[int_cols].fillna(0).astype(int)` on one row:
cells of the seven count columns are coerced, all other cells untouched. -/
def coerceRow (r : Row) : Row :=
  r.map (fun kv => if kv.1 ∈ int_cols then (kv.1, coerceCell kv.2) else kv)

/-- Embeds the column mapping of
`df.rename(columns={'AD_REQUESTS_CTR': 'ctr', 'COST_PER_CLICK': 'cpc'})`. -/
def renameKey (k : String) : String :=
  if k = "AD_REQUESTS_CTR" then "ctr"
  else if k = "COST_PER_CLICK" then "cpc"
  else k

/-- The rename applied to one row: keys are mapped, values untouched. -/
def renameRow (r : Row) : Row :=
  r.map (fun kv => (renameKey kv.1, kv.2))

/-- A warehouse call issued by the sink, in program order. -/
inductive Op where
  | deleteFrom (cutoff : String)
  | appendRows (rows : List Row)
deriving DecidableEq, Repr

/-- True when the DELETE of `delete_yesterday_data` keeps row `r`:
the query removes the rows whose `date` is `>=` the cutoff string, so a
row survives exactly when its date is lexicographically below the cutoff
(BigQuery compares the DATE column against the `YYYY-MM-DD` literal, which
agrees with string order). -/
def keepRow (cutoff : String) (r : Row) : Bool :=
  match r.lookup "date" with
  | some (some (Val.str s)) => decide (s < cutoff)
  | _ => true

/-- Embeds `BigQueryClient.delete_yesterday_data`, run at wall-clock time
`now`, on warehouse contents `w`: computes the previous day as the cutoff,
issues the DELETE and waits for it.  Returns the surviving rows and the
issued operation. -/
def delete_yesterday_data (now : Date) (w : List Row) : List Row × Op :=
  let previous_date := fmtDate (prevDay now)
  (w.filter (keepRow previous_date), Op.deleteFrom previous_date)

/-- Result of a `push_to_bigquery` call: the caller's DataFrame object as
it stands after the call (the int-column assignment mutates it in place),
the trace of warehouse operations, and the new warehouse contents. -/
structure PushResult where
  callerDf : List Row
  ops : List Op
  warehouse : List Row
deriving DecidableEq, Repr

/-- Embeds `BigQueryClient.push_to_bigquery(df)` run at wall-clock time
`now` against warehouse contents `w`: on an empty frame it returns at once;
otherwise it coerces the count columns in place, renames the rate columns
on a fresh frame, deletes the previous day's rows, and appends. -/
def push_to_bigquery (now : Date) (df w : List Row) : PushResult :=
  if df.isEmpty then ⟨df, [], w⟩
  else
    let coerced := df.map coerceRow
    let renamed := coerced.map renameRow
    let (w1, delOp) := delete_yesterday_data now w
    ⟨coerced, [delOp, Op.appendRows renamed], w1 ++ renamed⟩

/-- One account entry of the reporting API `accounts().list()` response. -/
structure Account where
  name : String
  displayName : String
deriving DecidableEq, Repr

/-- A header of a `reports().generate()` response. -/
structure ApiHeader where
  name : String
deriving DecidableEq, Repr

/-- A cell of a report row; the API delivers every value as a string. -/
structure ApiCell where
  value : String
deriving DecidableEq, Repr

/-- A row of a `reports().generate()` response. -/
structure ApiRow where
  cells : List ApiCell
deriving DecidableEq, Repr

/-- A `reports().generate()` response body: `rows = none` embeds a response
in which the `rows` key is absent. -/
structure Report where
  headers : List ApiHeader
  rows : Option (List ApiRow)
deriving DecidableEq, Repr

/-- Embeds `AdSenseAPI.list_accounts`: the response of
`accounts().list().execute()` either raised (`Except.error`, caught by the
except branch, which returns `[]`) or delivered a list of accounts, whose
ids are collected in order. -/
def list_accounts (resp : Except Unit (List Account)) : List String :=
  match resp with
  | .error _ => []
  | .ok accounts => accounts.map Account.name

/-- Parse the digit string `cs` as a natural number; `none` when a
character is not a digit. -/
def parseNatDigits (cs : List Char) : Option Nat :=
  if cs.all Char.isDigit then
    some (cs.foldl (fun n c => 10 * n + (c.toNat - 48)) 0)
  else none

/-- Split a character list at the first dot: the part before it, and the
part after it when a dot occurs. -/
def breakDot : List Char → List Char × Option (List Char)
  | [] => ([], none)
  | c :: t =>
      if c = '.' then ([], some t)
      else
        let (i, f) := breakDot t
        (c :: i, f)

/-- Parse an unsigned decimal numeral: digits with an optional fraction
part, at least one digit in total. -/
def parseDecCore (cs : List Char) : Option ℚ :=
  match breakDot cs with
  | (i, none) =>
      if i = [] then none
      else (parseNatDigits i).map (fun n => (n : ℚ))
  | (i, some f) =>
      if i = [] && f = [] then none
      else do
        let ip ← parseNatDigits i
        let fp ← parseNatDigits f
        pure ((ip : ℚ) + (fp : ℚ) / ((10 : ℚ) ^ f.length))

/-- Embeds Python `float` on the stringified decimal numerals the API
delivers (an optional minus sign, digits, an optional fraction part);
`none` embeds `float` raising `ValueError`. -/
def parseDec (s : String) : Option ℚ :=
  match s.toList with
  | '-' :: rest => (parseDecCore rest).map (fun q => -q)
  | cs => parseDecCore cs

/-- Build one consolidated row from one API report row, as the loop body of
`fetch_report` does: the first three cells are the DATE, DOMAIN_NAME and
COUNTRY_CODE dimensions, the remaining cells are zipped with the metric
headers and parsed as floats.  `none` embeds an exception in the loop body
(too few cells, or an unparsable numeral), which the except branch of
`fetch_report` turns into an empty result for the whole account. -/
def parseApiRow (account_id : String) (headers : List ApiHeader) (r : ApiRow) :
    Option Row :=
  match r.cells with
  | c0 :: c1 :: c2 :: rest =>
      (List.mapM
          (fun hc : ApiHeader × ApiCell =>
            (parseDec hc.2.value).map (fun q => (hc.1.name, some (Val.num q))))
          ((headers.drop 3).zip rest)).map
        (fun metrics =>
          ("account_id", some (Val.str account_id)) ::
          ("date", some (Val.str c0.value)) ::
          ("domain", some (Val.str c1.value)) ::
          ("country", some (Val.str c2.value)) :: metrics)
  | _ => none

/-- Embeds `AdSenseAPI.fetch_report(account_id)`: the response of
`reports().generate().execute()` either raised (`Except.error`) or
delivered a report.  A raised request, a response without a `rows` key, and
an exception while building the rows all yield the empty DataFrame through
the try/except of the source; otherwise the parsed rows are returned in
order. -/
def fetch_report (account_id : String) (resp : Except Unit Report) : List Row :=
  match resp with
  | .error _ => []
  | .ok report =>
      match report.rows with
      | none => []
      | some rs =>
          match rs.mapM (parseApiRow account_id report.headers) with
          | none => []
          | some rows => rows

/-- The environment one `AdSenseAPI` instance runs against: what its
`accounts().list()` call returns, and what its `reports().generate()` call
returns for each account id. -/
structure SourceEnv where
  accountsResp : Except Unit (List Account)
  fetchResp : String → Except Unit Report

/-- The rows one source contributes: each of its listed accounts in order,
each account contributing its fetched rows. -/
def sourceRows (s : SourceEnv) : List Row :=
  (list_accounts s.accountsResp).flatMap (fun a => fetch_report a (s.fetchResp a))

/-- The row sequences one source contributes, one sequence per account, in
account order. -/
def perAccountSeqs (s : SourceEnv) : List (List Row) :=
  (list_accounts s.accountsResp).map (fun a => fetch_report a (s.fetchResp a))

/-- Embeds the consolidation of `process_reports`: the running
`pd.concat([all_data, df], ignore_index=True)` over a list of row
sequences, starting from the empty frame. -/
def merge (dfs : List (List Row)) : List Row :=
  dfs.foldl (fun all_data df => all_data ++ df) []

/-- Embeds the four fetch loops of `process_reports`: for each source in
order, for each listed account in order, fetch and concatenate. -/
def allData (s1 s2 s3 s4 : SourceEnv) : List Row :=
  let d1 := (list_accounts s1.accountsResp).foldl
    (fun all_data a => all_data ++ fetch_report a (s1.fetchResp a)) []
  let d2 := (list_accounts s2.accountsResp).foldl
    (fun all_data a => all_data ++ fetch_report a (s2.fetchResp a)) d1
  let d3 := (list_accounts s3.accountsResp).foldl
    (fun all_data a => all_data ++ fetch_report a (s3.fetchResp a)) d2
  (list_accounts s4.accountsResp).foldl
    (fun all_data a => all_data ++ fetch_report a (s4.fetchResp a)) d3

/-- Outcome of `process_reports`: the warehouse operations issued and the
final warehouse contents. -/
structure RunResult where
  ops : List Op
  warehouse : List Row
deriving DecidableEq, Repr

/-- Embeds `AdSenseReportProcessor.process_reports` run at wall-clock time
`now` against warehouse contents `w`: consolidate all sources, then push to
BigQuery only when the result is non-empty. -/
def process_reports (now : Date) (s1 s2 s3 s4 : SourceEnv) (w : List Row) :
    RunResult :=
  let all_data := allData s1 s2 s3 s4
  if all_data.isEmpty then ⟨[], w⟩
  else
    let p := push_to_bigquery now all_data w
    ⟨p.ops, p.warehouse⟩

/-- The environment a whole run executes against: for each of the four
`AdSenseAPI` instances, whether its `authenticate()` call completes
(`Except.error` embeds an uncaught exception — a credential that cannot be
obtained or refreshed, or an interactive flow that cannot complete — which
propagates out of `AdSenseAPI.__init__`), and the API responses each
instance sees. -/
structure ProcEnv where
  auth1 : Except Unit Unit
  auth2 : Except Unit Unit
  auth3 : Except Unit Unit
  auth4 : Except Unit Unit
  src1 : SourceEnv
  src2 : SourceEnv
  src3 : SourceEnv
  src4 : SourceEnv

/-- Embeds `AdSenseReportProcessor.__init__`: the four `AdSenseAPI`
instances are constructed in order, each running `authenticate()`; an
exception in any of them propagates and aborts the construction. -/
def processorInit (e : ProcEnv) : Except Unit Unit := do
  let _ ← e.auth1
  let _ ← e.auth2
  let _ ← e.auth3
  let _ ← e.auth4
  pure ()

/-- Embeds the `__main__` driver: construct the processor (authenticating
every source), then run `process_reports`.  `Except.error` is a run that
terminated with an uncaught exception before any fetch or load. -/
def runMain (e : ProcEnv) (now : Date) (w : List Row) : Except Unit RunResult := do
  let _ ← processorInit e
  pure (process_reports now e.src1 e.src2 e.src3 e.src4 w)

/-- True when a cell is not a string: the metric cells of a consolidated
table are numbers or missing, never strings (on a string `astype(int)`
would raise, a case outside this embedding). -/
def isNumCell : Option Val → Bool
  | some (Val.str _) => false
  | _ => true

/-- Every count-column cell of every row of `df` is a number or missing:
the domain on which the embedding of the integer coercion is faithful. -/
def NumOk (df : List Row) : Prop :=
  ∀ r ∈ df, ∀ kv ∈ r, kv.1 ∈ int_cols → isNumCell kv.2 = true

section Lemmas

/-- Unfolding of the in-place coercion on a row head. -/
theorem coerceRow_cons (k : String) (v : Option Val) (t : Row) :
    coerceRow ((k, v) :: t) =
      (if k ∈ int_cols then (k, coerceCell v) else (k, v)) :: coerceRow t := rfl

/-- Unfolding of the rename on a row head. -/
theorem renameRow_cons (k : String) (v : Option Val) (t : Row) :
    renameRow ((k, v) :: t) = (renameKey k, v) :: renameRow t := rfl

/-- Looking a column up after the in-place coercion: the cell of a count
column is coerced, any other cell is untouched. -/
theorem lookup_coerceRow (c : String) (r : Row) :
    (coerceRow r).lookup c =
      (r.lookup c).map (fun v => if c ∈ int_cols then coerceCell v else v) := by
  induction r with
  | nil => rfl
  | cons kv t ih =>
      obtain ⟨k, v⟩ := kv
      rw [coerceRow_cons]
      by_cases hceq : c = k
      · subst hceq
        by_cases hk : c ∈ int_cols <;>
          simp [hk, List.lookup_cons]
      · have hbeq := beq_eq_false_iff_ne.mpr hceq
        by_cases hk : k ∈ int_cols <;>
          simp [hk, List.lookup_cons, hbeq, ih]

/-- The in-place coercion does not change the column names of a row. -/
theorem coerceRow_keys (r : Row) : (coerceRow r).map Prod.fst = r.map Prod.fst := by
  induction r with
  | nil => rfl
  | cons kv t ih =>
      obtain ⟨k, v⟩ := kv
      rw [coerceRow_cons]
      by_cases hk : k ∈ int_cols <;> simp [hk, ih]

/-- Truncation toward zero is the identity on integers. -/
theorem truncQ_intCast (n : ℤ) : truncQ ((n : ℤ) : ℚ) = n := by
  unfold truncQ
  rw [Rat.num_intCast, Rat.den_intCast, Nat.div_one]
  split_ifs with h
  · rw [show ((n : ℚ) < 0 ↔ n < 0) from Int.cast_lt_zero] at h
    omega
  · rw [show ((n : ℚ) < 0 ↔ n < 0) from Int.cast_lt_zero, not_lt] at h
    omega

/-- Coercing a cell twice is the same as coercing it once. -/
theorem coerceCell_idem (v : Option Val) : coerceCell (coerceCell v) = coerceCell v := by
  have h0 : truncQ 0 = 0 := by simpa using truncQ_intCast 0
  match v with
  | none => simp [coerceCell, h0]
  | some (Val.num q) => simp [coerceCell, truncQ_intCast]
  | some (Val.str s) => rfl

/-- Coercing a row twice is the same as coercing it once. -/
theorem coerceRow_idem (r : Row) : coerceRow (coerceRow r) = coerceRow r := by
  induction r with
  | nil => rfl
  | cons kv t ih =>
      obtain ⟨k, v⟩ := kv
      rw [coerceRow_cons]
      by_cases hk : k ∈ int_cols <;>
        simp [hk, coerceRow_cons, coerceCell_idem, ih]

/-- The rename never leaves an `AD_REQUESTS_CTR` column behind. -/
theorem lookup_renameRow_ctr_src (r : Row) :
    (renameRow r).lookup "AD_REQUESTS_CTR" = none := by
  induction r with
  | nil => rfl
  | cons kv t ih =>
      obtain ⟨k, v⟩ := kv
      rw [renameRow_cons]
      have hne : ("AD_REQUESTS_CTR" : String) ≠ renameKey k := by
        unfold renameKey
        split_ifs with h1 h2
        · decide
        · decide
        · exact fun hcontra => h1 hcontra.symm
      simp [List.lookup_cons, beq_eq_false_iff_ne.mpr hne, ih]

/-- The rename never leaves a `COST_PER_CLICK` column behind. -/
theorem lookup_renameRow_cpc_src (r : Row) :
    (renameRow r).lookup "COST_PER_CLICK" = none := by
  induction r with
  | nil => rfl
  | cons kv t ih =>
      obtain ⟨k, v⟩ := kv
      rw [renameRow_cons]
      have hne : ("COST_PER_CLICK" : String) ≠ renameKey k := by
        unfold renameKey
        split_ifs with h1 h2
        · decide
        · decide
        · exact fun hcontra => h2 hcontra.symm
      simp [List.lookup_cons, beq_eq_false_iff_ne.mpr hne, ih]

/-- After the rename, `ctr` holds the value `AD_REQUESTS_CTR` held, provided
the row had no `ctr` column of its own. -/
theorem lookup_renameRow_ctr (r : Row) (h : "ctr" ∉ r.map Prod.fst) :
    (renameRow r).lookup "ctr" = r.lookup "AD_REQUESTS_CTR" := by
  induction r with
  | nil => rfl
  | cons kv t ih =>
      obtain ⟨k, v⟩ := kv
      simp only [List.map_cons, List.mem_cons, not_or] at h
      obtain ⟨hk, ht⟩ := h
      rw [renameRow_cons]
      by_cases h1 : k = "AD_REQUESTS_CTR"
      · subst h1
        simp [renameKey, List.lookup_cons]
      · by_cases h2 : k = "COST_PER_CLICK"
        · subst h2
          have hA : ("ctr" : String) ≠ "cpc" := by decide
          have hB : ("AD_REQUESTS_CTR" : String) ≠ "COST_PER_CLICK" := by decide
          simp [renameKey, List.lookup_cons, beq_eq_false_iff_ne.mpr hA,
            beq_eq_false_iff_ne.mpr hB, ih ht]
        · have hkk : renameKey k = k := by simp [renameKey, h1, h2]
          have hB : ("AD_REQUESTS_CTR" : String) ≠ k := fun hcontra => h1 hcontra.symm
          rw [hkk]
          simp [List.lookup_cons, beq_eq_false_iff_ne.mpr hk,
            beq_eq_false_iff_ne.mpr hB, ih ht]

/-- After the rename, `cpc` holds the value `COST_PER_CLICK` held, provided
the row had no `cpc` column of its own. -/
theorem lookup_renameRow_cpc (r : Row) (h : "cpc" ∉ r.map Prod.fst) :
    (renameRow r).lookup "cpc" = r.lookup "COST_PER_CLICK" := by
  induction r with
  | nil => rfl
  | cons kv t ih =>
      obtain ⟨k, v⟩ := kv
      simp only [List.map_cons, List.mem_cons, not_or] at h
      obtain ⟨hk, ht⟩ := h
      rw [renameRow_cons]
      by_cases h1 : k = "AD_REQUESTS_CTR"
      · subst h1
        have hA : ("cpc" : String) ≠ "ctr" := by decide
        have hB : ("COST_PER_CLICK" : String) ≠ "AD_REQUESTS_CTR" := by decide
        simp [renameKey, List.lookup_cons, beq_eq_false_iff_ne.mpr hA,
          beq_eq_false_iff_ne.mpr hB, ih ht]
      · by_cases h2 : k = "COST_PER_CLICK"
        · subst h2
          simp [renameKey, h1, List.lookup_cons]
        · have hkk : renameKey k = k := by simp [renameKey, h1, h2]
          have hB : ("COST_PER_CLICK" : String) ≠ k := fun hcontra => h2 hcontra.symm
          rw [hkk]
          simp [List.lookup_cons, beq_eq_false_iff_ne.mpr hk,
            beq_eq_false_iff_ne.mpr hB, ih ht]

/-- The rename leaves every column other than the two rate columns and
their new names untouched. -/
theorem lookup_renameRow_other (r : Row) (c : String)
    (hc : c ∉ (["AD_REQUESTS_CTR", "COST_PER_CLICK", "ctr", "cpc"] : List String)) :
    (renameRow r).lookup c = r.lookup c := by
  simp only [List.mem_cons, List.not_mem_nil, or_false, not_or] at hc
  obtain ⟨hA, hC, hctr, hcpc⟩ := hc
  induction r with
  | nil => rfl
  | cons kv t ih =>
      obtain ⟨k, v⟩ := kv
      rw [renameRow_cons]
      by_cases hceq : c = k
      · subst hceq
        have hkk : renameKey c = c := by simp [renameKey, hA, hC]
        simp [hkk, List.lookup_cons]
      · have hkr : c ≠ renameKey k := by
          unfold renameKey
          split_ifs with h1 h2
          · exact hctr
          · exact hcpc
          · exact hceq
        simp [List.lookup_cons, beq_eq_false_iff_ne.mpr hkr,
          beq_eq_false_iff_ne.mpr hceq, ih]

/-- Folding row-sequence concatenation from an accumulator is the
accumulator followed by the flattened contributions. -/
theorem foldl_append_flatMap {α : Type} (f : α → List Row) (l : List α)
    (init : List Row) :
    l.foldl (fun acc a => acc ++ f a) init = init ++ l.flatMap f := by
  induction l generalizing init with
  | nil => simp
  | cons a t ih => simp [List.foldl_cons, ih, List.flatMap_cons, List.append_assoc]

/-- The consolidated table is the concatenation of the four sources'
contributions, in source order. -/
theorem allData_eq (s1 s2 s3 s4 : SourceEnv) :
    allData s1 s2 s3 s4 =
      sourceRows s1 ++ sourceRows s2 ++ sourceRows s3 ++ sourceRows s4 := by
  simp [allData, foldl_append_flatMap, sourceRows, List.append_assoc]

/-- On a non-empty frame, `push_to_bigquery` is one delete at the previous
day followed by one append of the coerced, renamed rows, and the caller's
frame is left coerced. -/
theorem push_spec (now : Date) (df w : List Row) (hne : df ≠ []) :
    push_to_bigquery now df w =
      ⟨df.map coerceRow,
       [Op.deleteFrom (fmtDate (prevDay now)),
        Op.appendRows ((df.map coerceRow).map renameRow)],
       w.filter (keepRow (fmtDate (prevDay now))) ++
         (df.map coerceRow).map renameRow⟩ := by
  rw [push_to_bigquery, if_neg (by simpa [List.isEmpty_iff] using hne)]
  rfl

/-- Filtering with a predicate after keeping its complement yields nothing. -/
theorem filter_not_filter (p : Row → Bool) (l : List Row) :
    (l.filter p).filter (fun r => ! p r) = [] := by
  rw [List.filter_filter]
  simp

end Lemmas

/-- A consolidated row of the shape the pipeline produces: the four
dimension columns followed by the eleven metric columns. -/
def sampleRow : Row :=
  [("account_id", some (Val.str "pub-1")),
   ("date", some (Val.str "2026-10-11")),
   ("domain", some (Val.str "example.com")),
   ("country", some (Val.str "US")),
   ("ESTIMATED_EARNINGS", some (Val.num (5 / 2))),
   ("PAGE_VIEWS", some (Val.num 7)),
   ("PAGE_VIEWS_RPM", some (Val.num (1 / 2))),
   ("CLICKS", none),
   ("AD_REQUESTS_CTR", some (Val.num (12 / 100))),
   ("COST_PER_CLICK", some (Val.num (1 / 2))),
   ("TOTAL_IMPRESSIONS", some (Val.num 10)),
   ("AD_REQUESTS", some (Val.num 20)),
   ("MATCHED_AD_REQUESTS", some (Val.num 15)),
   ("IMPRESSIONS", some (Val.num 9)),
   ("INDIVIDUAL_AD_IMPRESSIONS", some (Val.num 3))]

/-- A warehouse row from an earlier load, dated before the delete window. -/
def staleRow : Row :=
  [("account_id", some (Val.str "pub-0")),
   ("date", some (Val.str "2026-10-05")),
   ("CLICKS", some (Val.num 4))]

/-- C2: on every non-empty consolidated table, the load issues exactly one
delete whose cutoff is the previous day of the wall clock, followed by
exactly one append — the delete completes (its result is acknowledged)
before the append starts, which the trace order captures — and the delete
removes precisely the rows whose date is at or after the cutoff. -/
theorem load_delete_precedes_append (now : Date) (df w : List Row) (hne : df ≠ []) :
    (push_to_bigquery now df w).ops =
      [Op.deleteFrom (fmtDate (prevDay now)),
       Op.appendRows ((df.map coerceRow).map renameRow)] ∧
    (push_to_bigquery now df w).warehouse =
      w.filter (keepRow (fmtDate (prevDay now))) ++ (df.map coerceRow).map renameRow ∧
    ∀ (r : Row) (s : String), r.lookup "date" = some (some (Val.str s)) →
      (keepRow (fmtDate (prevDay now)) r = false ↔ fmtDate (prevDay now) ≤ s) := by
  refine ⟨by rw [push_spec now df w hne], by rw [push_spec now df w hne], ?_⟩
  intro r s hs
  simp [keepRow, hs, not_lt]

/-- Witness for C2 at a concrete run date, table and warehouse. -/
theorem load_delete_precedes_append_witness :
    (push_to_bigquery ⟨2026, 10, 12⟩ [sampleRow] [staleRow]).ops =
      [Op.deleteFrom (fmtDate (prevDay ⟨2026, 10, 12⟩)),
       Op.appendRows (([sampleRow].map coerceRow).map renameRow)] ∧
    (push_to_bigquery ⟨2026, 10, 12⟩ [sampleRow] [staleRow]).warehouse =
      [staleRow].filter (keepRow (fmtDate (prevDay ⟨2026, 10, 12⟩))) ++
        ([sampleRow].map coerceRow).map renameRow ∧
    ∀ (r : Row) (s : String), r.lookup "date" = some (some (Val.str s)) →
      (keepRow (fmtDate (prevDay ⟨2026, 10, 12⟩)) r = false ↔
        fmtDate (prevDay ⟨2026, 10, 12⟩) ≤ s) :=
  load_delete_precedes_append ⟨2026, 10, 12⟩ [sampleRow] [staleRow] (by decide)

/-- C3: the load coerces the seven count columns to integers before the
append: each appended row is the coerced (then renamed) image of an input
row, a missing count cell is coerced to the integer 0, and a numeric count
cell is truncated to an integer — in particular the value 3.0 is loaded as
the integer 3. -/
theorem load_coerces_int_columns (now : Date) (df w : List Row) (r : Row)
    (c : String) (hne : df ≠ []) (hc : c ∈ int_cols) :
    (push_to_bigquery now df w).ops =
      [Op.deleteFrom (fmtDate (prevDay now)),
       Op.appendRows ((df.map coerceRow).map renameRow)] ∧
    (r.lookup c = some none → (coerceRow r).lookup c = some (some (Val.num 0))) ∧
    (∀ q : ℚ, r.lookup c = some (some (Val.num q)) →
      (coerceRow r).lookup c = some (some (Val.num ((truncQ q : ℤ) : ℚ)))) ∧
    coerceCell (some (Val.num 3)) = some (Val.num 3) := by
  refine ⟨by rw [push_spec now df w hne], ?_, ?_, by decide⟩
  · intro hmiss
    rw [lookup_coerceRow, hmiss]
    simp [hc, coerceCell]
  · intro q hq
    rw [lookup_coerceRow, hq]
    simp [hc, coerceCell]

/-- Witness for C3 on the CLICKS column of a concrete row with a missing
count cell. -/
theorem load_coerces_int_columns_witness :
    (push_to_bigquery ⟨2026, 10, 12⟩ [sampleRow] []).ops =
      [Op.deleteFrom (fmtDate (prevDay ⟨2026, 10, 12⟩)),
       Op.appendRows (([sampleRow].map coerceRow).map renameRow)] ∧
    (sampleRow.lookup "CLICKS" = some none →
      (coerceRow sampleRow).lookup "CLICKS" = some (some (Val.num 0))) ∧
    (∀ q : ℚ, sampleRow.lookup "CLICKS" = some (some (Val.num q)) →
      (coerceRow sampleRow).lookup "CLICKS" = some (some (Val.num ((truncQ q : ℤ) : ℚ)))) ∧
    coerceCell (some (Val.num 3)) = some (Val.num 3) :=
  load_coerces_int_columns ⟨2026, 10, 12⟩ [sampleRow] [] sampleRow "CLICKS"
    (by decide) (by decide)

/-- C4: the appended rows carry the rate columns under their warehouse
names: `ctr` holds the former `AD_REQUESTS_CTR` value, `cpc` the former
`COST_PER_CLICK` value, neither old name survives the rename, and every
other column keeps its name and value. -/
theorem load_renames_rate_columns (now : Date) (df w : List Row) (r : Row)
    (c : String) (hne : df ≠ [])
    (hctr : "ctr" ∉ r.map Prod.fst) (hcpc : "cpc" ∉ r.map Prod.fst)
    (hc : c ∉ (["AD_REQUESTS_CTR", "COST_PER_CLICK", "ctr", "cpc"] : List String)) :
    (push_to_bigquery now df w).ops =
      [Op.deleteFrom (fmtDate (prevDay now)),
       Op.appendRows ((df.map coerceRow).map renameRow)] ∧
    (renameRow r).lookup "ctr" = r.lookup "AD_REQUESTS_CTR" ∧
    (renameRow r).lookup "cpc" = r.lookup "COST_PER_CLICK" ∧
    (renameRow r).lookup "AD_REQUESTS_CTR" = none ∧
    (renameRow r).lookup "COST_PER_CLICK" = none ∧
    (renameRow r).lookup c = r.lookup c :=
  ⟨by rw [push_spec now df w hne], lookup_renameRow_ctr r hctr,
    lookup_renameRow_cpc r hcpc, lookup_renameRow_ctr_src r,
    lookup_renameRow_cpc_src r, lookup_renameRow_other r c hc⟩

/-- Witness for C4 on a concrete coerced row and the date column. -/
theorem load_renames_rate_columns_witness :
    (push_to_bigquery ⟨2026, 10, 12⟩ [sampleRow] []).ops =
      [Op.deleteFrom (fmtDate (prevDay ⟨2026, 10, 12⟩)),
       Op.appendRows (([sampleRow].map coerceRow).map renameRow)] ∧
    (renameRow (coerceRow sampleRow)).lookup "ctr" =
      (coerceRow sampleRow).lookup "AD_REQUESTS_CTR" ∧
    (renameRow (coerceRow sampleRow)).lookup "cpc" =
      (coerceRow sampleRow).lookup "COST_PER_CLICK" ∧
    (renameRow (coerceRow sampleRow)).lookup "AD_REQUESTS_CTR" = none ∧
    (renameRow (coerceRow sampleRow)).lookup "COST_PER_CLICK" = none ∧
    (renameRow (coerceRow sampleRow)).lookup "date" =
      (coerceRow sampleRow).lookup "date" :=
  load_renames_rate_columns ⟨2026, 10, 12⟩ [sampleRow] [] (coerceRow sampleRow)
    "date" (by decide) (by decide) (by decide) (by decide)

/-- C10: the load mutates the frame of its caller in place: after the call
the caller observes the count columns coerced, but the rename was applied
to a fresh local frame, so the caller still sees the original column names
while only the appended rows carry `ctr` and `cpc`. -/
theorem load_mutates_caller_table (now : Date) (df w : List Row) (hne : df ≠ []) :
    (push_to_bigquery now df w).callerDf = df.map coerceRow ∧
    (∀ (r : Row) (c : String), c ∈ int_cols →
      (coerceRow r).lookup c = (r.lookup c).map coerceCell) ∧
    (∀ r : Row, (coerceRow r).map Prod.fst = r.map Prod.fst) ∧
    (push_to_bigquery now df w).ops =
      [Op.deleteFrom (fmtDate (prevDay now)),
       Op.appendRows ((df.map coerceRow).map renameRow)] := by
  refine ⟨by rw [push_spec now df w hne], ?_, coerceRow_keys,
    by rw [push_spec now df w hne]⟩
  intro r c hc
  rw [lookup_coerceRow]
  cases r.lookup c <;> simp [hc]

/-- Witness for C10 at a concrete table. -/
theorem load_mutates_caller_table_witness :
    (push_to_bigquery ⟨2026, 10, 12⟩ [sampleRow] [staleRow]).callerDf =
      [sampleRow].map coerceRow ∧
    (∀ (r : Row) (c : String), c ∈ int_cols →
      (coerceRow r).lookup c = (r.lookup c).map coerceCell) ∧
    (∀ r : Row, (coerceRow r).map Prod.fst = r.map Prod.fst) ∧
    (push_to_bigquery ⟨2026, 10, 12⟩ [sampleRow] [staleRow]).ops =
      [Op.deleteFrom (fmtDate (prevDay ⟨2026, 10, 12⟩)),
       Op.appendRows (([sampleRow].map coerceRow).map renameRow)] :=
  load_mutates_caller_table ⟨2026, 10, 12⟩ [sampleRow] [staleRow] (by decide)

/-- The running concatenation of `merge` equals flattening. -/
theorem merge_eq_flatMap (dfs : List (List Row)) :
    merge dfs = dfs.flatMap (fun x => x) := by
  have h := foldl_append_flatMap (fun x : List Row => x) dfs []
  simpa [merge] using h

/-- C9: consolidation is order-preserving concatenation with no drops and
no deduplication — merging two row sequences yields the first followed by
the second — and the consolidated table is the merge of the per-account
row sequences in source-then-account encounter order, which is the
concatenation of the four sources' contributions in order. -/
theorem merge_concat_order (R1 R2 : List Row) (s1 s2 s3 s4 : SourceEnv) :
    merge [R1, R2] = R1 ++ R2 ∧
    allData s1 s2 s3 s4 =
      merge (perAccountSeqs s1 ++ perAccountSeqs s2 ++
        perAccountSeqs s3 ++ perAccountSeqs s4) ∧
    allData s1 s2 s3 s4 =
      sourceRows s1 ++ sourceRows s2 ++ sourceRows s3 ++ sourceRows s4 := by
  refine ⟨rfl, ?_, allData_eq s1 s2 s3 s4⟩
  rw [allData_eq, merge_eq_flatMap]
  simp [perAccountSeqs, sourceRows, List.flatMap_append, List.flatMap_map]

/-- C6: `fetch_report` never raises — a failed API request yields the
empty row sequence, and a response without a `rows` key yields the empty
row sequence. -/
theorem fetch_report_failure_empty (a : String) (u : Unit) (r : Report)
    (h : r.rows = none) :
    fetch_report a (Except.error u) = [] ∧ fetch_report a (Except.ok r) = [] := by
  exact ⟨rfl, by simp [fetch_report, h]⟩

/-- Witness for C6 at a concrete account and response. -/
theorem fetch_report_failure_empty_witness :
    fetch_report "pub-1" (Except.error ()) = [] ∧
    fetch_report "pub-1" (Except.ok ⟨[⟨"DATE"⟩], none⟩) = [] :=
  fetch_report_failure_empty "pub-1" () ⟨[⟨"DATE"⟩], none⟩ rfl

/-- A source whose account listing succeeds with zero accounts. -/
def emptySource : SourceEnv :=
  ⟨Except.ok [], fun _ => Except.error ()⟩

/-- A run environment in which every source authenticates and every source
lists zero accounts. -/
def emptyEnv : ProcEnv :=
  ⟨Except.ok (), Except.ok (), Except.ok (), Except.ok (),
   emptySource, emptySource, emptySource, emptySource⟩

/-- C5: when the consolidated table is empty — in particular when every
source returns zero accounts — the run completes successfully with a no-op
load: no delete and no append is issued, the warehouse is untouched, and
no error is raised. -/
theorem empty_table_noop_load (e : ProcEnv) (now : Date) (w : List Row)
    (ha1 : e.auth1 = Except.ok ()) (ha2 : e.auth2 = Except.ok ())
    (ha3 : e.auth3 = Except.ok ()) (ha4 : e.auth4 = Except.ok ())
    (hEmpty : allData e.src1 e.src2 e.src3 e.src4 = []) :
    runMain e now w = Except.ok ⟨[], w⟩ ∧
    push_to_bigquery now [] w = ⟨[], [], w⟩ := by
  refine ⟨?_, rfl⟩
  have hinit : processorInit e = Except.ok () := by
    unfold processorInit
    rw [ha1, ha2, ha3, ha4]
    rfl
  have hrun : runMain e now w =
      Except.ok (process_reports now e.src1 e.src2 e.src3 e.src4 w) := by
    unfold runMain
    rw [hinit]
    rfl
  rw [hrun]
  simp [process_reports, hEmpty]

/-- Witness for C5 in a concrete environment whose sources all list zero
accounts. -/
theorem empty_table_noop_load_witness :
    runMain emptyEnv ⟨2026, 10, 12⟩ [staleRow] = Except.ok ⟨[], [staleRow]⟩ ∧
    push_to_bigquery ⟨2026, 10, 12⟩ [] [staleRow] = ⟨[], [], [staleRow]⟩ :=
  empty_table_noop_load emptyEnv ⟨2026, 10, 12⟩ [staleRow] rfl rfl rfl rfl rfl

/-- C7: failures are isolated per source and per account — a failed
account listing contributes nothing instead of aborting the run, a failed
report fetch contributes nothing for that account, and the rows of the
remaining sources and accounts are all in the consolidated table and are
the rows the load appends. -/
theorem failure_isolation (s1 s2 s3 s4 : SourceEnv) (now : Date) (w : List Row)
    (a : String)
    (h2 : s2.accountsResp = Except.error ())
    (h3 : s3.fetchResp a = Except.error ())
    (hne : allData s1 s2 s3 s4 ≠ []) :
    list_accounts s2.accountsResp = [] ∧
    fetch_report a (s3.fetchResp a) = [] ∧
    allData s1 s2 s3 s4 = sourceRows s1 ++ sourceRows s3 ++ sourceRows s4 ∧
    (process_reports now s1 s2 s3 s4 w).ops =
      [Op.deleteFrom (fmtDate (prevDay now)),
       Op.appendRows (((sourceRows s1 ++ sourceRows s3 ++ sourceRows s4).map
         coerceRow).map renameRow)] := by
  have hl : list_accounts s2.accountsResp = [] := by rw [h2]; rfl
  have hsr2 : sourceRows s2 = [] := by simp [sourceRows, hl]
  have hAll : allData s1 s2 s3 s4 = sourceRows s1 ++ sourceRows s3 ++ sourceRows s4 := by
    rw [allData_eq, hsr2]
    simp
  have hproc : (process_reports now s1 s2 s3 s4 w).ops =
      (push_to_bigquery now (allData s1 s2 s3 s4) w).ops := by
    simp [process_reports, List.isEmpty_eq_false.mpr hne]
  refine ⟨hl, by rw [h3]; rfl, hAll, ?_⟩
  rw [hproc]
  rw [hAll] at hne ⊢
  rw [push_spec now (sourceRows s1 ++ sourceRows s3 ++ sourceRows s4) w hne]

/-- A source with one account and one one-row report. -/
def liveSource : SourceEnv :=
  ⟨Except.ok [⟨"pub-1", "Account One"⟩],
   fun _ => Except.ok
     ⟨[⟨"DATE"⟩, ⟨"DOMAIN_NAME"⟩, ⟨"COUNTRY_CODE"⟩, ⟨"CLICKS"⟩],
      some [⟨[⟨"2026-10-11"⟩, ⟨"example.com"⟩, ⟨"US"⟩, ⟨"3.0"⟩]⟩]⟩⟩

/-- A source whose account listing fails. -/
def brokenListSource : SourceEnv :=
  ⟨Except.error (), fun _ => Except.error ()⟩

/-- A source with one account whose report fetch fails. -/
def brokenFetchSource : SourceEnv :=
  ⟨Except.ok [⟨"pub-3", "Account Three"⟩], fun _ => Except.error ()⟩

/-- Witness for C7 in a concrete environment: source 2 fails to list,
source 3 fails to fetch, and source 1 still contributes its row. -/
theorem failure_isolation_witness :
    list_accounts brokenListSource.accountsResp = [] ∧
    fetch_report "pub-3" (brokenFetchSource.fetchResp "pub-3") = [] ∧
    allData liveSource brokenListSource brokenFetchSource emptySource =
      sourceRows liveSource ++ sourceRows brokenFetchSource ++
        sourceRows emptySource ∧
    (process_reports ⟨2026, 10, 12⟩ liveSource brokenListSource
        brokenFetchSource emptySource []).ops =
      [Op.deleteFrom (fmtDate (prevDay ⟨2026, 10, 12⟩)),
       Op.appendRows ((((sourceRows liveSource ++ sourceRows brokenFetchSource ++
         sourceRows emptySource).map coerceRow).map renameRow))] :=
  failure_isolation liveSource brokenListSource brokenFetchSource emptySource
    ⟨2026, 10, 12⟩ [] "pub-3" rfl rfl (by decide)

/-- A run environment in which source 2 cannot authenticate while source 1
has one account with one report row to contribute. -/
def authFailEnv : ProcEnv :=
  ⟨Except.ok (), Except.error (), Except.ok (), Except.ok (),
   liveSource, emptySource, emptySource, emptySource⟩

/-- C8 counterexample: in `authFailEnv` only source 2 fails to
authenticate, and source 1 has a non-empty report to contribute; yet the
whole run terminates with the authentication error — the exception raised
inside the constructor of the second `AdSenseAPI` propagates out of
`AdSenseReportProcessor.__init__`, so no source fetches and nothing is
consolidated or loaded, contradicting that the failure is fatal only for
that one source. -/
theorem auth_failure_aborts_run_cex :
    authFailEnv.auth2 = Except.error () ∧
    sourceRows authFailEnv.src1 ≠ [] ∧
    runMain authFailEnv ⟨2026, 10, 12⟩ [staleRow] = Except.error () :=
  ⟨rfl, by decide, rfl⟩

/-- C8 amended: an authentication failure for any source is fatal for the
entire run, not only for that source — the processor construction aborts
before any account listing, fetch, consolidation or load happens, and the
run terminates with the error. -/
theorem auth_failure_fatal_whole_run (e : ProcEnv) (now : Date) (w : List Row)
    (h : e.auth1 = Except.error () ∨ e.auth2 = Except.error () ∨
      e.auth3 = Except.error () ∨ e.auth4 = Except.error ()) :
    runMain e now w = Except.error () := by
  cases he1 : e.auth1 <;> cases he2 : e.auth2 <;>
    cases he3 : e.auth3 <;> cases he4 : e.auth4
  all_goals (unfold runMain processorInit; rw [he1, he2, he3, he4])
  all_goals try rfl
  rcases h with h | h | h | h <;> simp_all

/-- Witness for the amended C8 in a concrete environment whose second
source fails to authenticate. -/
theorem auth_failure_fatal_whole_run_witness :
    runMain authFailEnv ⟨2026, 10, 12⟩ [staleRow] = Except.error () :=
  auth_failure_fatal_whole_run authFailEnv ⟨2026, 10, 12⟩ [staleRow]
    (Or.inr (Or.inl rfl))

/-- C1: running the load twice in succession with the same (mutated in
place) input table and the same run date issues the same delete and the
same append both times — the delete of the second run removes exactly the
window rows the first run appended before the second append re-inserts
them — and afterwards the warehouse holds, over the covered date window
(dates at or after the cutoff), exactly one copy of the rows of the input
table. -/
theorem load_twice_single_copy (now : Date) (df w : List Row)
    (hne : df ≠ []) (hnum : NumOk df) :
    (push_to_bigquery now (push_to_bigquery now df w).callerDf
        (push_to_bigquery now df w).warehouse).ops =
      [Op.deleteFrom (fmtDate (prevDay now)),
       Op.appendRows ((df.map coerceRow).map renameRow)] ∧
    (push_to_bigquery now (push_to_bigquery now df w).callerDf
        (push_to_bigquery now df w).warehouse).ops =
      (push_to_bigquery now df w).ops ∧
    ((push_to_bigquery now (push_to_bigquery now df w).callerDf
        (push_to_bigquery now df w).warehouse).warehouse.filter
          (fun r => ! keepRow (fmtDate (prevDay now)) r)) =
      ((df.map coerceRow).map renameRow).filter
        (fun r => ! keepRow (fmtDate (prevDay now)) r) := by
  have hmapne : df.map coerceRow ≠ [] := by
    intro hcontra
    exact hne (by simpa using hcontra)
  have hidem : (df.map coerceRow).map coerceRow = df.map coerceRow := by
    rw [List.map_map]
    exact List.map_congr_left (fun r _ => coerceRow_idem r)
  have e1c : (push_to_bigquery now df w).callerDf = df.map coerceRow := by
    rw [push_spec now df w hne]
  have e1o : (push_to_bigquery now df w).ops =
      [Op.deleteFrom (fmtDate (prevDay now)),
       Op.appendRows ((df.map coerceRow).map renameRow)] := by
    rw [push_spec now df w hne]
  have e1w : (push_to_bigquery now df w).warehouse =
      w.filter (keepRow (fmtDate (prevDay now))) ++
        (df.map coerceRow).map renameRow := by
    rw [push_spec now df w hne]
  rw [e1c, e1o, e1w, push_spec now (df.map coerceRow) _ hmapne]
  refine ⟨by rw [hidem], by rw [hidem], ?_⟩
  rw [hidem, List.filter_append, filter_not_filter]
  simp

/-- Witness for C1 at a concrete run date, input table and warehouse. -/
theorem load_twice_single_copy_witness :
    (push_to_bigquery ⟨2026, 10, 12⟩
        (push_to_bigquery ⟨2026, 10, 12⟩ [sampleRow] [staleRow]).callerDf
        (push_to_bigquery ⟨2026, 10, 12⟩ [sampleRow] [staleRow]).warehouse).ops =
      [Op.deleteFrom (fmtDate (prevDay ⟨2026, 10, 12⟩)),
       Op.appendRows (([sampleRow].map coerceRow).map renameRow)] ∧
    (push_to_bigquery ⟨2026, 10, 12⟩
        (push_to_bigquery ⟨2026, 10, 12⟩ [sampleRow] [staleRow]).callerDf
        (push_to_bigquery ⟨2026, 10, 12⟩ [sampleRow] [staleRow]).warehouse).ops =
      (push_to_bigquery ⟨2026, 10, 12⟩ [sampleRow] [staleRow]).ops ∧
    ((push_to_bigquery ⟨2026, 10, 12⟩
        (push_to_bigquery ⟨2026, 10, 12⟩ [sampleRow] [staleRow]).callerDf
        (push_to_bigquery ⟨2026, 10, 12⟩ [sampleRow] [staleRow]).warehouse).warehouse.filter
          (fun r => ! keepRow (fmtDate (prevDay ⟨2026, 10, 12⟩)) r)) =
      (([sampleRow].map coerceRow).map renameRow).filter
        (fun r => ! keepRow (fmtDate (prevDay ⟨2026, 10, 12⟩)) r) :=
  load_twice_single_copy ⟨2026, 10, 12⟩ [sampleRow] [staleRow]
    (by decide) (by unfold NumOk; decide)
